import Mathlib

/-
Verification of the Hodie visualization service
(src/hodie-labs/visualization-service/app.py) against its
natural-language specification.

The Python service is shallowly embedded below.  Numeric data travels as
JSON numbers and is modelled by ℚ; timestamps (datetime.now, file mtimes)
are modelled by Int seconds; the pixel-level matplotlib rendering is an
external collaborator, so an endpoint's observable behaviour is modelled
as the renderer-facing chart specification it builds, the side effects it
performs (figure renders and image-store writes), and the HTTP result it
returns.  Python exceptions caught by an endpoint's `except` block become
`Except.error` results carrying the HTTP status 500; explicit validation
returns carry status 400.
-/

namespace Hodie

/-- HTTP error surfaced to the client: a status code and the JSON `error`
message, as produced by `jsonify({'error': ...}), status`. -/
structure HttpError where
  status : Nat
  message : String
deriving DecidableEq

/-- Observable side effect of an endpoint: invoking the matplotlib
renderer for one figure, or writing one image file into the store
(`fig.savefig` inside `save_figure`). -/
inductive Effect where
  | render : String → Effect
  | save : String → Effect
deriving DecidableEq

deriving instance DecidableEq for Except

/-- Result of an endpoint: the effects it performed, in order, and either
a success payload or an HTTP error. -/
structure EndpointOut (α : Type) where
  effects : List Effect
  result : Except HttpError α
deriving DecidableEq

/-- Arithmetic mean, as computed by `np.mean(values)`.  For the empty
list ℚ division by zero yields 0, standing in for numpy's NaN (no
endpoint reaches that case with an empty list except degenerate
multi-histogram datasets, about which nothing is claimed). -/
def mean (l : List ℚ) : ℚ := l.sum / l.length

/-- Population variance: square of `np.std(values)` (numpy default
ddof=0, dividing by N). -/
def popVariance (l : List ℚ) : ℚ :=
  ((l.map fun x => (x - mean l) ^ 2).sum) / l.length

/-- Square of the sample standard deviation (ddof=1, dividing by N−1);
not what the code computes — used only to contrast with `popVariance`. -/
def sampleVariance (l : List ℚ) : ℚ :=
  ((l.map fun x => (x - mean l) ^ 2).sum) / ((l.length : ℚ) - 1)

/-- The standard deviation of `l` equals `s`: `s` is the nonnegative
square root of the population variance.  Stated relationally because
square roots leave ℚ. -/
def stdIs (l : List ℚ) (s : ℚ) : Prop := 0 ≤ s ∧ s * s = popVariance l

/-- Insert into a sorted list (helper for the median). -/
def insertSorted (x : ℚ) : List ℚ → List ℚ
  | [] => [x]
  | y :: ys => if x ≤ y then x :: y :: ys else y :: insertSorted x ys

/-- Sort ascending (insertion sort). -/
def sortQ (l : List ℚ) : List ℚ := l.foldr insertSorted []

/-- Median as computed by `np.median(values)`: middle element of the
sorted list, or the average of the two middle elements for even length. -/
def median (l : List ℚ) : ℚ :=
  let s := sortQ l
  let n := s.length
  if n = 0 then 0
  else if n % 2 = 1 then s.getD (n / 2) 0
  else (s.getD (n / 2 - 1) 0 + s.getD (n / 2) 0) / 2

/-- One entry of the image directory (`IMAGE_DIR`).  `isFile` is the
result `os.path.isfile` reports during a sweep; `vanishes` annotates the
race in which the file disappears between the sweep's expiry check and
its `os.remove` call, so that an attempted removal raises
`FileNotFoundError` (the flag is irrelevant when removal is never
attempted). -/
structure DirEntry where
  name : String
  isFile : Bool
  mtime : Int
  vanishes : Bool
deriving DecidableEq

/-- Filename produced by `save_figure`:
`f"{prefix}_{uuid.uuid4().hex[:8]}.png"`, with the 8-hex-character
random token passed in explicitly. -/
def mkFilename (pfx tok : String) : String := pfx ++ "_" ++ tok ++ ".png"

/-- Response payload built by `save_figure`.  The base64 payload's bytes
come from the external renderer and are out of scope; only the data-URI
framing is kept. -/
structure ImageDescriptor where
  filename : String
  url : String
  base64 : String
  timestamp : Int
deriving DecidableEq

/-- Descriptor returned by `save_figure` for a given prefix, random
token and current time. -/
def mkDescriptor (pfx tok : String) (now : Int) : ImageDescriptor :=
  { filename := mkFilename pfx tok
    url := "/api/images/" ++ mkFilename pfx tok
    base64 := "data:image/png;base64,"
    timestamp := now }

/-- The store write performed by `save_figure`: `fig.savefig(filepath)`
writes the file named `mkFilename pfx tok` with mtime `now`.  If a file
of that name already exists, `savefig` silently truncates and rewrites
it (modelled by replacing its mtime); otherwise a new directory entry is
created.  Returns the descriptor and the updated directory. -/
def save_figure (pfx tok : String) (now : Int) (store : List DirEntry) :
    ImageDescriptor × List DirEntry :=
  let fn := mkFilename pfx tok
  ( mkDescriptor pfx tok now
  , if store.any fun e => e.name = fn then
      store.map fun e => if e.name = fn then { e with mtime := now } else e
    else
      store ++ [⟨fn, true, now, false⟩] )

/-- Expiry test of the sweep: `file_age.total_seconds() > 86400` where
the age is `now - os.path.getmtime(filepath)`. -/
def isExpired (now : Int) (e : DirEntry) : Bool := decide (now - e.mtime > 86400)

/-- Entry on which the sweep's `os.remove` raises: a regular file that
is past retention (so removal is attempted) and vanishes before the
`os.remove` call. -/
def raisesAt (now : Int) (e : DirEntry) : Bool :=
  e.isFile && isExpired now e && e.vanishes

/-- Outcome of the sweep loop: deletions counted, directory contents
afterwards, and the uncaught exception if one was raised (which aborts
the loop, leaving later entries unprocessed). -/
structure SweepOut where
  deleted : Nat
  dir : List DirEntry
  err : Option String
deriving DecidableEq

/-- The loop body of `cleanup_old_images`: for each listed entry, if it
is a regular file and its age exceeds 24 hours, remove it and count the
deletion.  An entry that vanishes between the expiry check and the
removal raises `FileNotFoundError`, which propagates and stops the loop
(there is no per-entry handler in the source). -/
def sweepEntries (now : Int) : List DirEntry → SweepOut
  | [] => ⟨0, [], none⟩
  | e :: rest =>
    if e.isFile then
      if isExpired now e then
        if e.vanishes then ⟨0, rest, some "FileNotFoundError"⟩
        else
          let o := sweepEntries now rest
          ⟨o.deleted + 1, o.dir, o.err⟩
      else
        let o := sweepEntries now rest
        ⟨o.deleted, e :: o.dir, o.err⟩
    else
      let o := sweepEntries now rest
      ⟨o.deleted, e :: o.dir, o.err⟩

/-- JSON body of a successful cleanup response. -/
structure CleanupResponse where
  success : Bool
  deleted : Nat
  message : String
deriving DecidableEq

/-- POST `/api/visualize/cleanup`: run the sweep over the image
directory; an uncaught exception is turned into a 500 error by the
endpoint's `except` block.  Also returns the directory as left behind
(deletions performed before an abort persist). -/
def cleanup_old_images (now : Int) (store : List DirEntry) :
    Except HttpError CleanupResponse × List DirEntry :=
  let o := sweepEntries now store
  match o.err with
  | some msg => (.error ⟨500, msg⟩, o.dir)
  | none =>
      (.ok ⟨true, o.deleted,
            "Cleaned up " ++ toString o.deleted ++ " old images"⟩, o.dir)

/-- GET `/api/images/<filename>`: serve the stored file if
`os.path.exists` finds it, else a 404 JSON error.  The served bytes are
external; the success payload is the filename served. -/
def serve_image (store : List DirEntry) (filename : String) :
    Except HttpError String :=
  if store.any fun e => e.name = filename then .ok filename
  else .error ⟨404, "Image not found"⟩

/-- Deletion of a single named entry, following the guarded pattern of
the source (`if os.path.isfile(filepath): os.remove(filepath)`): an
absent name is a no-op, never an error. -/
def deleteImage (store : List DirEntry) (filename : String) : List DirEntry :=
  if store.any fun e => e.name = filename then
    store.filter fun e => e.name ≠ filename
  else store

/-- Body of POST `/api/visualize/histogram` after defaulting:
`data`, `field`, `title`, `xlabel`, `bins`. -/
structure HistogramRequest where
  data : List ℚ
  fieldName : String
  title : String
  xlabel : String
  bins : Int
deriving DecidableEq

/-- Renderer-facing specification the histogram endpoint builds: the
series with its bin count, labels, and the annotated statistics
`np.mean`, `np.median`, `np.std` (the last carried as its square, the
population variance). -/
structure HistogramSpec where
  values : List ℚ
  bins : Int
  title : String
  xlabel : String
  statsMean : ℚ
  statsMedian : ℚ
  statsVariance : ℚ
deriving DecidableEq

/-- POST `/api/visualize/histogram` (`generate_histogram`): reject 400
when `data` is empty, else render one histogram.  `ax.hist` raises
`ValueError` for a non-positive integer `bins`, which the endpoint's
`except` turns into a 500 after the figure was already created; the
statistics are computed only after a successful `hist` call. -/
def generate_histogram (req : HistogramRequest) (tok : String) (now : Int) :
    EndpointOut (HistogramSpec × ImageDescriptor) :=
  if req.data = [] then ⟨[], .error ⟨400, "No data provided"⟩⟩
  else if req.bins ≤ 0 then
    ⟨[.render "histogram"],
     .error ⟨500, "bins must be positive, when an integer"⟩⟩
  else
    ⟨[.render "histogram", .save (mkFilename "histogram" tok)],
     .ok ({ values := req.data, bins := req.bins, title := req.title
            xlabel := req.xlabel, statsMean := mean req.data
            statsMedian := median req.data
            statsVariance := popVariance req.data },
          mkDescriptor "histogram" tok now)⟩

/-- Body of POST `/api/visualize/scatter` after defaulting. -/
structure ScatterRequest where
  x_data : List ℚ
  y_data : List ℚ
  classes : Option (List ℚ)
  title : String
  xlabel : String
  ylabel : String
deriving DecidableEq

/-- Color assigned to a class partition: `'#10b981' if class_val == 1
else '#ef4444'`. -/
def classColor (c : ℚ) : String := if c = 1 then "#10b981" else "#ef4444"

/-- Label assigned to a class partition: `'Return Donor' if class_val ==
1 else 'Non-Return Donor'`. -/
def classLabel (c : ℚ) : String :=
  if c = 1 then "Return Donor" else "Non-Return Donor"

/-- First-appearance deduplication with fuel, modelling
`df['class'].unique()` (pandas returns the distinct values in order of
first appearance).  Fuel-based recursion keeps the definition structural
so closed instances evaluate. -/
def uniqueGo : Nat → List ℚ → List ℚ
  | 0, _ => []
  | _ + 1, [] => []
  | n + 1, c :: rest => c :: uniqueGo n (rest.filter fun v => !decide (v = c))

/-- Distinct values of a list in order of first appearance
(`pandas.Series.unique`). -/
def uniqueVals (l : List ℚ) : List ℚ := uniqueGo l.length l

/-- One class partition of a scatter plot: the class value, the points
of that class, and the fixed color/label pair drawn for it. -/
structure ScatterGroup where
  classVal : ℚ
  points : List (ℚ × ℚ)
  color : String
  label : String
deriving DecidableEq

/-- The per-class scatter series built by `generate_scatter` when
classes are supplied: one group per distinct class value (in order of
first appearance), holding the (x, y) points whose class equals it. -/
def scatterGroups (x y cs : List ℚ) : List ScatterGroup :=
  let pts := (x.zip y).zip cs
  (uniqueVals cs).map fun c =>
    { classVal := c
      points := (pts.filter fun p => p.2 = c).map fun p => p.1
      color := classColor c
      label := classLabel c }

/-- Renderer-facing series of a scatter plot: per-class colored groups,
or a single uncolored series when no classes were supplied. -/
inductive ScatterSeries where
  | classed : List ScatterGroup → ScatterSeries
  | plain : List (ℚ × ℚ) → ScatterSeries
deriving DecidableEq

/-- POST `/api/visualize/scatter` (`generate_scatter`): reject 400 when
`x_data` or `y_data` is empty.  A supplied non-empty `classes` list
(`if classes:` is false for `None` and for `[]`) selects the per-class
branch, where `pd.DataFrame` raises if the three arrays differ in
length; the plain branch's `ax.scatter` raises if x and y differ in
length.  Either exception surfaces as 500 after the figure exists. -/
def generate_scatter (req : ScatterRequest) (tok : String) (now : Int) :
    EndpointOut (ScatterSeries × ImageDescriptor) :=
  if req.x_data = [] ∨ req.y_data = [] then
    ⟨[], .error ⟨400, "x_data and y_data required"⟩⟩
  else
    match req.classes with
    | some cs =>
      if cs = [] then
        if req.x_data.length = req.y_data.length then
          ⟨[.render "scatter", .save (mkFilename "scatter" tok)],
           .ok (.plain (req.x_data.zip req.y_data),
                mkDescriptor "scatter" tok now)⟩
        else ⟨[.render "scatter"],
              .error ⟨500, "x and y must be the same size"⟩⟩
      else
        if req.x_data.length = req.y_data.length ∧
            req.y_data.length = cs.length then
          ⟨[.render "scatter", .save (mkFilename "scatter" tok)],
           .ok (.classed (scatterGroups req.x_data req.y_data cs),
                mkDescriptor "scatter" tok now)⟩
        else ⟨[.render "scatter"],
              .error ⟨500, "All arrays must be of the same length"⟩⟩
    | none =>
      if req.x_data.length = req.y_data.length then
        ⟨[.render "scatter", .save (mkFilename "scatter" tok)],
         .ok (.plain (req.x_data.zip req.y_data),
              mkDescriptor "scatter" tok now)⟩
      else ⟨[.render "scatter"],
            .error ⟨500, "x and y must be the same size"⟩⟩

/-- One dataset of a multi-histogram request, after the source's
per-entry defaulting of `data`/`label`/`color`. -/
structure MHDataset where
  data : List ℚ
  label : String
  color : String
deriving DecidableEq

/-- One sub-chart of the multi-histogram figure: its own histogram with
20 bins and a dashed mean line annotated with that dataset's own mean. -/
structure SubChart where
  label : String
  color : String
  bins : Int
  meanLine : ℚ
deriving DecidableEq

/-- Renderer-facing layout of the multi-histogram figure: the subplot
grid dimensions, the sub-charts placed at cells 0, 1, … in order, and
the indices of grid cells hidden via `set_visible(False)`. -/
structure MultiHistLayout where
  title : String
  rows : Nat
  cols : Nat
  charts : List SubChart
  hiddenCells : List Nat
deriving DecidableEq

/-- POST `/api/visualize/multi-histogram` (`generate_multi_histogram`):
reject 400 when fewer than 2 datasets; else lay the N sub-charts out on
a grid of `(N+1)//2` rows and 2 columns (the 1-column case is
unreachable past validation), each annotated with its own mean, and hide
the grid cells from index N up. -/
def generate_multi_histogram (datasets : List MHDataset) (title tok : String)
    (now : Int) : EndpointOut (MultiHistLayout × ImageDescriptor) :=
  if datasets.length < 2 then
    ⟨[], .error ⟨400, "At least 2 datasets required"⟩⟩
  else
    let n := datasets.length
    let rows := (n + 1) / 2
    let cols := if n > 1 then 2 else 1
    ⟨[.render "multi_histogram", .save (mkFilename "multi_histogram" tok)],
     .ok ({ title := title, rows := rows, cols := cols
            charts := datasets.map fun ds =>
              { label := ds.label, color := ds.color, bins := 20
                meanLine := mean ds.data }
            hiddenCells := (List.range (rows * cols)).filter fun i => n ≤ i },
          mkDescriptor "multi_histogram" tok now)⟩

/-- Renderer-facing specification of a bar chart: category/value pairs,
the palette slice used, and the per-bar integer value labels (`int()`
truncates toward zero). -/
structure BarSpec where
  bars : List (String × ℚ)
  colorsUsed : List String
  valueLabels : List Int
  title : String
  xlabel : String
  ylabel : String
deriving DecidableEq

/-- Truncation toward zero, as Python's `int()` applied to a float. -/
def intTrunc (q : ℚ) : Int := Int.tdiv q.num q.den

/-- The fixed 4-color palette of `generate_bar_chart`. -/
def barPalette : List String := ["#10b981", "#ef4444", "#3b82f6", "#f59e0b"]

/-- POST `/api/visualize/bar-chart` (`generate_bar_chart`): reject 400
when `categories` or `values` is empty; `ax.bar` raises on a length
mismatch, surfaced as 500 after the figure exists. -/
def generate_bar_chart (categories : List String) (values : List ℚ)
    (title xlabel ylabel tok : String) (now : Int) :
    EndpointOut (BarSpec × ImageDescriptor) :=
  if categories = [] ∨ values = [] then
    ⟨[], .error ⟨400, "categories and values required"⟩⟩
  else if categories.length = values.length then
    ⟨[.render "bar_chart", .save (mkFilename "bar_chart" tok)],
     .ok ({ bars := categories.zip values
            colorsUsed := barPalette.take categories.length
            valueLabels := values.map intTrunc
            title := title, xlabel := xlabel, ylabel := ylabel },
          mkDescriptor "bar_chart" tok now)⟩
  else
    ⟨[.render "bar_chart"], .error ⟨500, "shape mismatch"⟩⟩

/-- One record of a blood-data request; each recognized field is
optional (`pd.DataFrame` keeps a column when any record carries the
key). -/
structure BloodRecord where
  recency : Option ℚ
  frequency : Option ℚ
  monetary : Option ℚ
  time : Option ℚ
  cls : Option ℚ
deriving DecidableEq

/-- Column presence in the DataFrame built from the records: the field
key appears in at least one record. -/
def hasField (records : List BloodRecord) (f : BloodRecord → Option ℚ) : Bool :=
  records.any fun r => (f r).isSome

/-- Number of records whose `class` value equals `c`
(`df['class'].value_counts()` restricted to one value; NaN entries of
records lacking the field are dropped by `value_counts`). -/
def classCount (records : List BloodRecord) (c : ℚ) : Nat :=
  records.countP fun r => r.cls = some c

/-- A numeric field whose DataFrame column is only partially populated:
the key is present in some record and absent in another, so
`pd.DataFrame` fills the missing rows with NaN. -/
def fieldMixed (records : List BloodRecord) (f : BloodRecord → Option ℚ) : Bool :=
  (records.any fun r => (f r).isSome) && (records.any fun r => (f r).isNone)

/-- Whether panel 1 of the blood-data report raises: `ax.hist` on a
NaN-containing column fails, because numpy's automatic range detection
takes the min/max of the data — NaN — and raises
`ValueError: autodetected range of [nan, nan] is not finite`.  This
happens exactly when one of the four histogrammed fields is present in
some record but missing from another (a fully absent field is skipped,
a fully present one is finite). -/
def histGridRaises (records : List BloodRecord) : Bool :=
  fieldMixed records (fun r => r.recency) ||
    fieldMixed records (fun r => r.frequency) ||
    fieldMixed records (fun r => r.monetary) ||
    fieldMixed records (fun r => r.time)

/-- JSON body of a successful blood-data response. -/
structure BloodResponse where
  success : Bool
  count : Nat
  visualizations : List ImageDescriptor
deriving DecidableEq

/-- POST `/api/visualize/blood-data` (`visualize_blood_data`): reject
400 on no records; otherwise build up to four panels in a fixed order,
each persisted via `save_figure` as it is produced.  Panel 1 (the 2×2
histogram grid) is created and attempted unconditionally — a fully
absent field merely leaves its grid cell empty, but a field present in
only some records yields a NaN-filled column on which `ax.hist` raises
`ValueError`, surfaced as 500 before the grid is saved.  Panel 2
requires the `frequency`, `monetary` and `class` columns; panel 3
requires `class` and computes per-bar percentages as `val / total` with
`total = count(class=0) + count(class=1)`, a Python `int` division that
raises `ZeroDivisionError` when no record has class 0 or 1, surfaced as
500 (panels already saved stay in the store); panel 4 requires `recency`
and `frequency`.  The random tokens of the successive `save_figure`
calls are supplied by `toks`, indexed by panel ordinal. -/
def visualize_blood_data (records : List BloodRecord) (toks : Nat → String)
    (now : Int) : EndpointOut BloodResponse :=
  if records = [] then ⟨[], .error ⟨400, "No data provided"⟩⟩
  else if histGridRaises records then
    ⟨[Effect.render "blood_histograms"],
     .error ⟨500, "autodetected range of [nan, nan] is not finite"⟩⟩
  else
    let hasR := hasField records fun r => r.recency
    let hasF := hasField records fun r => r.frequency
    let hasM := hasField records fun r => r.monetary
    let hasC := hasField records fun r => r.cls
    let vs1 := [mkDescriptor "blood_histograms" (toks 0) now]
    let es1 := [Effect.render "blood_histograms",
                Effect.save (mkFilename "blood_histograms" (toks 0))]
    let p2 := hasF && hasM && hasC
    let vs2 := if p2 then
        vs1 ++ [mkDescriptor "frequency_vs_monetary" (toks vs1.length) now]
      else vs1
    let es2 := if p2 then
        es1 ++ [Effect.render "frequency_vs_monetary",
                Effect.save (mkFilename "frequency_vs_monetary" (toks vs1.length))]
      else es1
    if hasC ∧ classCount records 0 + classCount records 1 = 0 then
      ⟨es2 ++ [Effect.render "class_distribution"],
       .error ⟨500, "division by zero"⟩⟩
    else
      let vs3 := if hasC then
          vs2 ++ [mkDescriptor "class_distribution" (toks vs2.length) now]
        else vs2
      let es3 := if hasC then
          es2 ++ [Effect.render "class_distribution",
                  Effect.save (mkFilename "class_distribution" (toks vs2.length))]
        else es2
      let p4 := hasR && hasF
      let vs4 := if p4 then
          vs3 ++ [mkDescriptor "recency_vs_frequency" (toks vs3.length) now]
        else vs3
      let es4 := if p4 then
          es3 ++ [Effect.render "recency_vs_frequency",
                  Effect.save (mkFilename "recency_vs_frequency" (toks vs3.length))]
        else es3
      ⟨es4, .ok ⟨true, vs4.length, vs4⟩⟩

/-- The panel prefixes a blood-data request produces, in order: the
histogram grid unconditionally, then each conditional panel guarded by
its field-presence predicate.  Companion description used to state the
blood-data theorems. -/
def activePanels (records : List BloodRecord) : List String :=
  let hasR := hasField records fun r => r.recency
  let hasF := hasField records fun r => r.frequency
  let hasM := hasField records fun r => r.monetary
  let hasC := hasField records fun r => r.cls
  ["blood_histograms"]
    ++ (if hasF && hasM && hasC then ["frequency_vs_monetary"] else [])
    ++ (if hasC then ["class_distribution"] else [])
    ++ (if hasR && hasF then ["recency_vs_frequency"] else [])

/-- Occurrence count of a value in a list (Prop-predicate form of
`List.count`, avoiding `BEq`). -/
def occCount (c : ℚ) (l : List ℚ) : Nat := l.countP fun v => v = c

lemma occCount_filter_ne (v c : ℚ) (l : List ℚ) (h : v ≠ c) :
    occCount v (l.filter fun w => !decide (w = c)) = occCount v l := by
  induction l with
  | nil => rfl
  | cons a t ih =>
    by_cases ha : a = c
    · subst ha
      simp [occCount, List.filter_cons, List.countP_cons, Ne.symm h] at ih ⊢
      exact ih
    · by_cases hv : a = v
      · subst hv
        simp [occCount, List.filter_cons, List.countP_cons, ha] at ih ⊢
        omega
      · simp [occCount, List.filter_cons, List.countP_cons, ha, Ne.symm hv]
          at ih ⊢
        exact ih

lemma occCount_add_filter_length (c : ℚ) (l : List ℚ) :
    occCount c l + (l.filter fun v => !decide (v = c)).length = l.length := by
  induction l with
  | nil => rfl
  | cons a t ih =>
    by_cases ha : a = c
    · subst ha
      simp [occCount, List.filter_cons, List.countP_cons] at ih ⊢
      omega
    · simp [occCount, List.filter_cons, List.countP_cons, ha] at ih ⊢
      omega

lemma mem_uniqueGo (n : Nat) : ∀ (l : List ℚ) (v : ℚ), l.length ≤ n →
    (v ∈ uniqueGo n l ↔ v ∈ l) := by
  induction n with
  | zero =>
    intro l v h
    have : l = [] := List.eq_nil_of_length_eq_zero (Nat.le_zero.mp h)
    subst this
    simp [uniqueGo]
  | succ m ih =>
    intro l v h
    cases l with
    | nil => simp [uniqueGo]
    | cons c rest =>
      have hlen : (rest.filter fun w => !decide (w = c)).length ≤ m := by
        have h1 := List.length_filter_le (fun w => !decide (w = c)) rest
        simp at h
        omega
      by_cases hv : v = c
      · subst hv
        simp [uniqueGo]
      · have ihv := ih (rest.filter fun w => !decide (w = c)) v hlen
        rw [List.mem_filter] at ihv
        simp [uniqueGo, hv, ihv]

lemma nodup_uniqueGo (n : Nat) : ∀ (l : List ℚ), l.length ≤ n →
    (uniqueGo n l).Nodup := by
  induction n with
  | zero =>
    intro l h
    have : l = [] := List.eq_nil_of_length_eq_zero (Nat.le_zero.mp h)
    subst this
    simp [uniqueGo]
  | succ m ih =>
    intro l h
    cases l with
    | nil => simp [uniqueGo]
    | cons c rest =>
      have hlen : (rest.filter fun w => !decide (w = c)).length ≤ m := by
        have h1 := List.length_filter_le (fun w => !decide (w = c)) rest
        simp at h
        omega
      refine List.Nodup.cons ?_ (ih _ hlen)
      intro hc
      have := (mem_uniqueGo m _ c hlen).mp hc
      simp [List.mem_filter] at this

lemma sum_occ_uniqueGo (n : Nat) : ∀ (l : List ℚ), l.length ≤ n →
    ((uniqueGo n l).map fun c => occCount c l).sum = l.length := by
  induction n with
  | zero =>
    intro l h
    have : l = [] := List.eq_nil_of_length_eq_zero (Nat.le_zero.mp h)
    subst this
    simp [uniqueGo]
  | succ m ih =>
    intro l h
    cases l with
    | nil => simp [uniqueGo]
    | cons c rest =>
      have hlen : (rest.filter fun w => !decide (w = c)).length ≤ m := by
        have h1 := List.length_filter_le (fun w => !decide (w = c)) rest
        simp at h
        omega
      have hmap : (uniqueGo m (rest.filter fun w => !decide (w = c))).map
            (fun v => occCount v (c :: rest)) =
          (uniqueGo m (rest.filter fun w => !decide (w = c))).map
            (fun v => occCount v (rest.filter fun w => !decide (w = c))) := by
        apply List.map_congr_left
        intro v hv
        have hvf := (mem_uniqueGo m _ v hlen).mp hv
        have hvne : v ≠ c := by
          rcases List.mem_filter.mp hvf with ⟨_, hd⟩
          simpa using hd
        rw [show occCount v (c :: rest) = occCount v rest by
              simp [occCount, List.countP_cons, Ne.symm hvne]]
        rw [occCount_filter_ne v c rest hvne]
      have hsum := ih (rest.filter fun w => !decide (w = c)) hlen
      have hocc : occCount c (c :: rest) = occCount c rest + 1 := by
        simp [occCount, List.countP_cons]
      calc ((uniqueGo (m + 1) (c :: rest)).map
              fun v => occCount v (c :: rest)).sum
          = occCount c (c :: rest) +
            ((uniqueGo m (rest.filter fun w => !decide (w = c))).map
              (fun v => occCount v (c :: rest))).sum := by
            simp [uniqueGo]
        _ = occCount c rest + 1 +
            ((uniqueGo m (rest.filter fun w => !decide (w = c))).map
              (fun v => occCount v
                (rest.filter fun w => !decide (w = c)))).sum := by
            rw [hmap, hocc]
        _ = occCount c rest + 1 +
              (rest.filter fun w => !decide (w = c)).length := by
            rw [hsum]
        _ = rest.length + 1 := by
            have := occCount_add_filter_length c rest
            omega
        _ = (c :: rest).length := by simp

lemma zip_filter_snd_length (c : ℚ) : ∀ (a : List (ℚ × ℚ)) (cs : List ℚ),
    a.length = cs.length →
    ((a.zip cs).filter fun p => p.2 = c).length = occCount c cs := by
  intro a
  induction a with
  | nil =>
    intro cs h
    have : cs = [] := List.eq_nil_of_length_eq_zero (by simpa using h.symm)
    subst this
    rfl
  | cons p t ih =>
    intro cs h
    cases cs with
    | nil => simp at h
    | cons v vs =>
      have hlen : t.length = vs.length := by simpa using h
      by_cases hv : v = c
      · subst hv
        simp [List.zip_cons_cons, List.filter_cons, occCount, List.countP_cons]
        have := ih vs hlen
        simp [occCount] at this
        omega
      · simp [List.zip_cons_cons, List.filter_cons, hv, occCount, List.countP_cons]
        have := ih vs hlen
        simp [occCount] at this
        omega

lemma sweepEntries_stable (now : Int) : ∀ (store : List DirEntry),
    (∀ e ∈ store, e.isFile = true ∧ e.vanishes = false) →
    sweepEntries now store =
      ⟨store.countP fun e => isExpired now e,
       store.filter fun e => !isExpired now e, none⟩ := by
  intro store
  induction store with
  | nil => intro _; rfl
  | cons e rest ih =>
    intro h
    have he := h e (by simp)
    have hrest : ∀ x ∈ rest, x.isFile = true ∧ x.vanishes = false := fun x hx =>
      h x (by simp [hx])
    by_cases hexp : isExpired now e
    · simp [sweepEntries, he.1, he.2, hexp, ih hrest, List.countP_cons,
        List.filter_cons]
    · simp [sweepEntries, he.1, he.2, hexp, ih hrest, List.countP_cons,
        List.filter_cons]

lemma sweepEntries_abort (now : Int) : ∀ (xs : List DirEntry) (e : DirEntry)
    (ys : List DirEntry), (∀ x ∈ xs, raisesAt now x = false) →
    raisesAt now e = true →
    (sweepEntries now (xs ++ e :: ys)).err = some "FileNotFoundError" ∧
    (sweepEntries now (xs ++ e :: ys)).dir = (sweepEntries now xs).dir ++ ys := by
  intro xs
  induction xs with
  | nil =>
    intro e ys _ he
    have h1 := he
    simp only [raisesAt, Bool.and_eq_true] at h1
    obtain ⟨⟨hf, hexp⟩, hvan⟩ := h1
    simp [sweepEntries, hf, hexp, hvan]
  | cons x xs ih =>
    intro e ys h he
    have hx : raisesAt now x = false := h x (by simp)
    have hxs : ∀ z ∈ xs, raisesAt now z = false := fun z hz => h z (by simp [hz])
    have ihe := ih e ys hxs he
    by_cases hf : x.isFile
    · by_cases hexp : isExpired now x
      · have hvan : x.vanishes = false := by
          simp [raisesAt, hf, hexp] at hx
          exact hx
        simp [sweepEntries, hf, hexp, hvan, ihe.1, ihe.2]
      · simp [sweepEntries, hf, hexp, ihe.1, ihe.2]
    · simp [sweepEntries, hf, ihe.1, ihe.2]

lemma countP_expired_filter (now : Int) (store : List DirEntry) :
    (store.filter fun e => !isExpired now e).countP (fun e => isExpired now e)
      = 0 := by
  induction store with
  | nil => rfl
  | cons e t ih =>
    by_cases h : isExpired now e <;>
      simp [List.filter_cons, h, List.countP_cons, ih]

lemma filter_not_expired_idem (now : Int) (store : List DirEntry) :
    ((store.filter fun e => !isExpired now e).filter fun e => !isExpired now e)
      = store.filter fun e => !isExpired now e := by
  induction store with
  | nil => rfl
  | cons e t ih =>
    by_cases h : isExpired now e <;> simp [List.filter_cons, h, ih]

lemma any_name_filter (store : List DirEntry) (name : String) :
    ((store.filter fun e => e.name ≠ name).any fun e => e.name = name)
      = false := by
  induction store with
  | nil => rfl
  | cons e t ih =>
    by_cases h : e.name = name <;> simp [List.filter_cons, h, ih]

lemma mkFilename_inj (pfx t1 t2 : String)
    (h : mkFilename pfx t1 = mkFilename pfx t2) : t1 = t2 := by
  unfold mkFilename at h
  have hd : pfx.data ++ ("_".data ++ (t1.data ++ ".png".data)) =
      pfx.data ++ ("_".data ++ (t2.data ++ ".png".data)) := by
    have := congrArg String.data h
    simpa [String.data_append, List.append_assoc] using this
  have h2 := List.append_cancel_left hd
  have h3 := List.append_cancel_left h2
  have h4 := List.append_cancel_right h3
  exact congrArg String.mk h4

/-- C1 (counterexample): the claim says a histogram request with
non-positive `bins`, a scatter request with x/y of different lengths
(with or without a classes array), and a bar chart with mismatched
categories/values are each rejected with a 400 `ValidationError`
before any rendering occurs.  In the code none of these conditions is
validated: all four requests reach the rendering stage (a `render`
effect occurs) and fail there with a 500 server error. -/
theorem C1_counterexample :
    generate_histogram ⟨[1, 2], "f", "T", "X", 0⟩ "t" 0 =
      ⟨[Effect.render "histogram"],
       .error ⟨500, "bins must be positive, when an integer"⟩⟩ ∧
    generate_scatter ⟨[1, 2], [1], none, "T", "X", "Y"⟩ "t" 0 =
      ⟨[Effect.render "scatter"],
       .error ⟨500, "x and y must be the same size"⟩⟩ ∧
    generate_scatter ⟨[1, 2], [3, 4], some [1], "T", "X", "Y"⟩ "t" 0 =
      ⟨[Effect.render "scatter"],
       .error ⟨500, "All arrays must be of the same length"⟩⟩ ∧
    generate_bar_chart ["a"] [1, 2] "T" "X" "Y" "t" 0 =
      ⟨[Effect.render "bar_chart"], .error ⟨500, "shape mismatch"⟩⟩ := by
  exact ⟨rfl, rfl, rfl, rfl⟩

/-- C1 (amended): the endpoints reject with a 400 client error, before
any rendering or store write, exactly when a required array is missing
or empty or a MultiHistogram carries fewer than 2 datasets; mismatched
paired array lengths (x/y without classes, x/y/classes together, and
categories/values) and non-positive histogram bins are not
pre-validated — each such request reaches the renderer and fails there
with a 500 server error. -/
theorem C1_amended :
    (∀ (req : HistogramRequest) (tok : String) (now : Int), req.data = [] →
      generate_histogram req tok now = ⟨[], .error ⟨400, "No data provided"⟩⟩) ∧
    (∀ (req : ScatterRequest) (tok : String) (now : Int),
      req.x_data = [] ∨ req.y_data = [] →
      generate_scatter req tok now =
        ⟨[], .error ⟨400, "x_data and y_data required"⟩⟩) ∧
    (∀ (cats : List String) (vals : List ℚ) (t xl yl tok : String) (now : Int),
      cats = [] ∨ vals = [] →
      generate_bar_chart cats vals t xl yl tok now =
        ⟨[], .error ⟨400, "categories and values required"⟩⟩) ∧
    (∀ (ds : List MHDataset) (t tok : String) (now : Int), ds.length < 2 →
      generate_multi_histogram ds t tok now =
        ⟨[], .error ⟨400, "At least 2 datasets required"⟩⟩) ∧
    (∀ (records : List BloodRecord) (toks : Nat → String) (now : Int),
      records = [] →
      visualize_blood_data records toks now =
        ⟨[], .error ⟨400, "No data provided"⟩⟩) ∧
    (∀ (req : HistogramRequest) (tok : String) (now : Int), req.data ≠ [] →
      req.bins ≤ 0 →
      generate_histogram req tok now =
        ⟨[Effect.render "histogram"],
         .error ⟨500, "bins must be positive, when an integer"⟩⟩) ∧
    (∀ (req : ScatterRequest) (tok : String) (now : Int), req.x_data ≠ [] →
      req.y_data ≠ [] → req.classes = none →
      req.x_data.length ≠ req.y_data.length →
      generate_scatter req tok now =
        ⟨[Effect.render "scatter"],
         .error ⟨500, "x and y must be the same size"⟩⟩) ∧
    (∀ (req : ScatterRequest) (tok : String) (now : Int) (cs : List ℚ),
      req.x_data ≠ [] → req.y_data ≠ [] → req.classes = some cs → cs ≠ [] →
      ¬(req.x_data.length = req.y_data.length ∧
        req.y_data.length = cs.length) →
      generate_scatter req tok now =
        ⟨[Effect.render "scatter"],
         .error ⟨500, "All arrays must be of the same length"⟩⟩) ∧
    (∀ (cats : List String) (vals : List ℚ) (t xl yl tok : String) (now : Int),
      cats ≠ [] → vals ≠ [] → cats.length ≠ vals.length →
      generate_bar_chart cats vals t xl yl tok now =
        ⟨[Effect.render "bar_chart"], .error ⟨500, "shape mismatch"⟩⟩) := by
  refine ⟨?_, ?_, ?_, ?_, ?_, ?_, ?_, ?_, ?_⟩
  · intro req tok now h
    simp [generate_histogram, h]
  · intro req tok now h
    rcases h with h | h <;> simp [generate_scatter, h]
  · intro cats vals t xl yl tok now h
    rcases h with h | h <;> simp [generate_bar_chart, h]
  · intro ds t tok now h
    simp [generate_multi_histogram, h]
  · intro records toks now h
    simp [visualize_blood_data, h]
  · intro req tok now h hb
    simp [generate_histogram, h, hb]
  · intro req tok now hx hy hcl hlen
    simp [generate_scatter, hx, hy, hcl, hlen]
  · intro req tok now cs hx hy hcl hcs hcond
    simp [generate_scatter, hx, hy, hcl, hcs, hcond]
  · intro cats vals t xl yl tok now hc hv hlen
    simp [generate_bar_chart, hc, hv, hlen]

/-- C1 (witness): the amended theorem applied to a concrete empty-data
histogram request. -/
theorem C1_witness :
    generate_histogram ⟨[], "f", "T", "X", 20⟩ "t" 0 =
      ⟨[], .error ⟨400, "No data provided"⟩⟩ :=
  C1_amended.1 ⟨[], "f", "T", "X", 20⟩ "t" 0 rfl

/-- C3 (counterexample): the claim says a failure to delete one entry
does not abort the rest of the sweep.  In the code the `FileNotFoundError`
raised when the first (expired) entry vanishes before `os.remove`
propagates out of the loop: the sweep returns a 500 error instead of a
result, and the second entry — also expired — is left undeleted. -/
theorem C3_counterexample :
    cleanup_old_images 200000
        [⟨"a.png", true, 0, true⟩, ⟨"b.png", true, 0, false⟩] =
      (.error ⟨500, "FileNotFoundError"⟩, [⟨"b.png", true, 0, false⟩]) := by
  rfl

/-- C3 (amended): a failure to delete one individual entry aborts the
rest of the sweep: whenever the sweep reaches an entry that is expired
but vanishes before its `os.remove` call, the whole endpoint returns a
500 error, and all entries after the failing one are left exactly as
they were. -/
theorem C3_amended : ∀ (now : Int) (xs : List DirEntry) (e : DirEntry)
    (ys : List DirEntry), (∀ x ∈ xs, raisesAt now x = false) →
    raisesAt now e = true →
    (cleanup_old_images now (xs ++ e :: ys)).1 =
      .error ⟨500, "FileNotFoundError"⟩ ∧
    (cleanup_old_images now (xs ++ e :: ys)).2 =
      (sweepEntries now xs).dir ++ ys := by
  intro now xs e ys h he
  have ha := sweepEntries_abort now xs e ys h he
  constructor
  · simp [cleanup_old_images, ha.1]
  · simp [cleanup_old_images, ha.1, ha.2]

/-- C3 (witness): the amended theorem applied to a sweep whose second
entry is expired but vanishes before removal. -/
theorem C3_witness :
    (cleanup_old_images 200000
        [⟨"a.png", true, 150000, false⟩, ⟨"b.png", true, 0, true⟩]).1 =
      .error ⟨500, "FileNotFoundError"⟩ := by
  have h := C3_amended 200000 [⟨"a.png", true, 150000, false⟩]
    ⟨"b.png", true, 0, true⟩ [] (by decide) (by decide)
  simpa using h.1

/-- C4 (confirmed): in a race-free sweep (every listed entry is a
regular file and none vanishes mid-sweep), cleanup deletes exactly the
entries whose age `now - mtime` exceeds 86400 seconds and reports that
number as `deleted`; a sweep run immediately after a `save_figure` put
deletes nothing; a single entry aged 25 hours (90000 s) is deleted with
`deleted = 1`; and a second sweep right after a first one deletes 0. -/
theorem C4_sweep_exact : ∀ (now : Int) (store : List DirEntry),
    (∀ e ∈ store, e.isFile = true ∧ e.vanishes = false) →
    (cleanup_old_images now store =
      (.ok ⟨true, store.countP fun e => isExpired now e,
            "Cleaned up " ++ toString (store.countP fun e => isExpired now e)
              ++ " old images"⟩,
       store.filter fun e => !isExpired now e)) ∧
    (∀ pfx tok : String, cleanup_old_images now ((save_figure pfx tok now []).2) =
      (.ok ⟨true, 0, "Cleaned up 0 old images"⟩, (save_figure pfx tok now []).2)) ∧
    (∀ name : String, cleanup_old_images now [⟨name, true, now - 90000, false⟩] =
      (.ok ⟨true, 1, "Cleaned up 1 old images"⟩, [])) ∧
    (cleanup_old_images now ((cleanup_old_images now store).2) =
      (.ok ⟨true, 0, "Cleaned up 0 old images"⟩,
       (cleanup_old_images now store).2)) := by
  intro now store h
  have hmain : ∀ (s : List DirEntry),
      (∀ e ∈ s, e.isFile = true ∧ e.vanishes = false) →
      cleanup_old_images now s =
        (.ok ⟨true, s.countP fun e => isExpired now e,
              "Cleaned up " ++ toString (s.countP fun e => isExpired now e)
                ++ " old images"⟩,
         s.filter fun e => !isExpired now e) := by
    intro s hs
    simp [cleanup_old_images, sweepEntries_stable now s hs]
  refine ⟨hmain store h, ?_, ?_, ?_⟩
  · intro pfx tok
    have hput : (save_figure pfx tok now []).2 =
        [⟨mkFilename pfx tok, true, now, false⟩] := by
      simp [save_figure]
    rw [hput,
      hmain [⟨mkFilename pfx tok, true, now, false⟩] (by simp)]
    have hfresh : isExpired now (⟨mkFilename pfx tok, true, now, false⟩ : DirEntry)
        = false := by
      simp [isExpired]
    simp [hfresh]
    rfl
  · intro name
    rw [hmain [⟨name, true, now - 90000, false⟩] (by simp)]
    have hold : isExpired now (⟨name, true, now - 90000, false⟩ : DirEntry)
        = true := by
      simp [isExpired]
    simp [hold]
    rfl
  · have hdir : (cleanup_old_images now store).2 =
        store.filter fun e => !isExpired now e := by
      rw [hmain store h]
    rw [hdir, hmain (store.filter fun e => !isExpired now e)
      (fun e he => h e (List.mem_of_mem_filter he))]
    rw [countP_expired_filter, filter_not_expired_idem]
    rfl

/-- C4 (witness): the characterization applied to a concrete two-entry
directory with one fresh and one expired file. -/
theorem C4_witness :
    cleanup_old_images 200000
        [⟨"a.png", true, 150000, false⟩, ⟨"b.png", true, 0, false⟩] =
      (.ok ⟨true, 1, "Cleaned up 1 old images"⟩,
       [⟨"a.png", true, 150000, false⟩]) := by
  have h := (C4_sweep_exact 200000
    [⟨"a.png", true, 150000, false⟩, ⟨"b.png", true, 0, false⟩] (by decide)).1
  simpa using h

/-- C5 (counterexample): the claim says every put assigns a fresh id and
never overwrites, so identical repeated requests return distinct
filenames.  The filename is `prefix + '_' + uuid4().hex[:8] + '.png'`;
when the drawn 8-hex-character tokens collide, the two puts produce the
same filename and the second `savefig` silently overwrites the first
file (the store still holds one entry, now with the later mtime). -/
theorem C5_counterexample :
    (save_figure "histogram" "aabbccdd" 0 []).1.filename =
      (save_figure "histogram" "aabbccdd" 5
        (save_figure "histogram" "aabbccdd" 0 []).2).1.filename ∧
    (save_figure "histogram" "aabbccdd" 5
        (save_figure "histogram" "aabbccdd" 0 []).2).2 =
      [⟨"histogram_aabbccdd.png", true, 5, false⟩] := by
  constructor <;> rfl

/-- C5 (amended): distinct random tokens yield distinct filenames, and a
put whose filename is not yet in the store appends a new entry; but on a
token collision the filename repeats and the existing entry is
overwritten in place (the store does not grow), so uniqueness of the
descriptors' filenames holds only up to uniqueness of the drawn 8-hex
tokens. -/
theorem C5_amended : ∀ (pfx t1 t2 : String) (now1 now2 : Int)
    (store : List DirEntry),
    (t1 ≠ t2 → (save_figure pfx t1 now1 store).1.filename ≠
      (save_figure pfx t2 now2 store).1.filename) ∧
    ((store.any fun e => e.name = mkFilename pfx t1) = false →
      (save_figure pfx t1 now1 store).2 =
        store ++ [⟨mkFilename pfx t1, true, now1, false⟩]) ∧
    ((store.any fun e => e.name = mkFilename pfx t1) = true →
      ((save_figure pfx t1 now1 store).2).length = store.length) := by
  intro pfx t1 t2 now1 now2 store
  refine ⟨?_, ?_, ?_⟩
  · intro hne heq
    exact hne (mkFilename_inj pfx t1 t2 heq)
  · intro habs
    simp [save_figure, habs]
  · intro hpre
    simp [save_figure, hpre]

/-- C5 (witness): the amended theorem applied to two distinct concrete
tokens over the empty store. -/
theorem C5_witness :
    (save_figure "histogram" "aabbccdd" 0 []).1.filename ≠
      (save_figure "histogram" "11223344" 0 []).1.filename :=
  (C5_amended "histogram" "aabbccdd" "11223344" 0 0 []).1 (by decide)

lemma mean_replicate (x : ℚ) (n : Nat) (h : n ≠ 0) :
    mean (List.replicate n x) = x := by
  simp only [mean, List.sum_replicate, List.length_replicate, nsmul_eq_mul]
  rw [mul_comm, mul_div_assoc, div_self (by exact_mod_cast h), mul_one]

lemma popVariance_replicate (x : ℚ) (n : Nat) :
    popVariance (List.replicate n x) = 0 := by
  cases n with
  | zero => simp [popVariance, mean]
  | succ m =>
    simp [popVariance, mean_replicate x (m + 1) (by omega), List.map_replicate,
      List.sum_replicate]

/-- C6 (confirmed): the statistics annotated on a histogram use
`np.std` with its default ddof = 0, i.e. the population standard
deviation.  For [2,4,4,4,5,5,7,9] the computed mean is 5 and the
standard deviation is the population value 2 (its square, the
population variance, is 4), not the sample value (whose square is
32/7); the endpoint annotates exactly these values.  A single-element
list and any constant list have standard deviation 0 (the computation
is total, it does not fail). -/
theorem C6_population_std :
    mean [2, 4, 4, 4, 5, 5, 7, 9] = 5 ∧
    popVariance [2, 4, 4, 4, 5, 5, 7, 9] = 4 ∧
    stdIs [2, 4, 4, 4, 5, 5, 7, 9] 2 ∧
    sampleVariance [2, 4, 4, 4, 5, 5, 7, 9] = 32 / 7 ∧
    popVariance [2, 4, 4, 4, 5, 5, 7, 9] ≠
      sampleVariance [2, 4, 4, 4, 5, 5, 7, 9] ∧
    (generate_histogram ⟨[2, 4, 4, 4, 5, 5, 7, 9], "v", "T", "X", 20⟩
        "t" 0).result =
      .ok (⟨[2, 4, 4, 4, 5, 5, 7, 9], 20, "T", "X", 5, 9 / 2, 4⟩,
           mkDescriptor "histogram" "t" 0) ∧
    (∀ x : ℚ, stdIs [x] 0) ∧
    (∀ (x : ℚ) (n : Nat), stdIs (List.replicate n x) 0) := by
  have hmean : mean [2, 4, 4, 4, 5, 5, 7, 9] = 5 := by
    norm_num [mean]
  have hvar : popVariance [2, 4, 4, 4, 5, 5, 7, 9] = 4 := by
    norm_num [popVariance, hmean]
  have hsample : sampleVariance [2, 4, 4, 4, 5, 5, 7, 9] = 32 / 7 := by
    norm_num [sampleVariance, hmean]
  have hmed : median [2, 4, 4, 4, 5, 5, 7, 9] = 9 / 2 := by
    norm_num [median, sortQ, insertSorted, List.getD]
  refine ⟨hmean, hvar, ⟨by norm_num, by rw [hvar]; norm_num⟩, hsample,
    by rw [hvar, hsample]; norm_num, ?_, ?_, ?_⟩
  · simp [generate_histogram, hmean, hvar, hmed]
  · intro x
    refine ⟨le_refl 0, ?_⟩
    have := popVariance_replicate x 1
    simpa using this.symm
  · intro x n
    exact ⟨le_refl 0, by simpa using (popVariance_replicate x n).symm⟩

/-- C6 (witness): the single-element conjunct of the statistics theorem
applied to the concrete value 3. -/
theorem C6_witness : stdIs [3] 0 :=
  C6_population_std.2.2.2.2.2.2.1 3

/-- C9 (confirmed): retrieving an image whose id was deleted, or never
created, yields the 404 `Image not found` error rather than raising;
deleting is guarded by an existence check, so deleting an absent id is a
no-op and deleting the same id twice equals deleting it once (the model
is a total function — no exception path exists). -/
theorem C9_get_delete : ∀ (store : List DirEntry) (name : String),
    ((store.any fun e => e.name = name) = false →
      serve_image store name = .error ⟨404, "Image not found"⟩) ∧
    (serve_image (deleteImage store name) name =
      .error ⟨404, "Image not found"⟩) ∧
    (deleteImage (deleteImage store name) name = deleteImage store name) ∧
    ((store.any fun e => e.name = name) = false →
      deleteImage store name = store) := by
  intro store name
  refine ⟨?_, ?_, ?_, ?_⟩
  · intro h
    simp [serve_image, h]
  · cases hany : store.any fun e => e.name = name
    · simp [deleteImage, hany, serve_image]
    · simp [deleteImage, hany, serve_image, any_name_filter]
  · cases hany : store.any fun e => e.name = name
    · simp [deleteImage, hany]
    · simp [deleteImage, hany, any_name_filter]
  · intro h
    simp [deleteImage, h]

/-- C9 (witness): the theorem applied to a concrete one-entry store and
the name it holds: after deletion the get returns 404, and the second
deletion is a no-op. -/
theorem C9_witness :
    serve_image (deleteImage [⟨"a.png", true, 0, false⟩] "a.png") "a.png" =
      .error ⟨404, "Image not found"⟩ ∧
    deleteImage (deleteImage [⟨"a.png", true, 0, false⟩] "a.png") "a.png" =
      deleteImage [⟨"a.png", true, 0, false⟩] "a.png" :=
  ⟨(C9_get_delete [⟨"a.png", true, 0, false⟩] "a.png").2.1,
   (C9_get_delete [⟨"a.png", true, 0, false⟩] "a.png").2.2.1⟩

/-- C10 (counterexample): the claim says every class-carrying request
without a class-0/1 record fails via the class-distribution panel's
division by zero.  Here the records satisfy those hypotheses, but
recency is present in one record and missing from the other, so the
code already fails at panel 1 — `ax.hist` on the NaN-filled recency
column — with a different 500 error; the class-distribution panel is
never even rendered (no such render effect), so its division is never
reached. -/
theorem C10_counterexample :
    hasField [(⟨some 1, none, none, none, some 5⟩ : BloodRecord),
              ⟨none, none, none, none, some 5⟩] (fun r => r.cls) = true ∧
    (∀ r ∈ [(⟨some 1, none, none, none, some 5⟩ : BloodRecord),
            ⟨none, none, none, none, some 5⟩],
      r.cls ≠ some 0 ∧ r.cls ≠ some 1) ∧
    visualize_blood_data [⟨some 1, none, none, none, some 5⟩,
        ⟨none, none, none, none, some 5⟩] (fun _ => "t") 0 =
      ⟨[Effect.render "blood_histograms"],
       .error ⟨500, "autodetected range of [nan, nan] is not finite"⟩⟩ := by
  exact ⟨rfl, by decide, rfl⟩

/-- C10 (amended): a blood-data request whose records carry the `class`
column but where no record has class 0 or 1 always fails with a 500
error and no descriptor list, although it passes the only validation
check (non-empty records).  The failure is the class-distribution
panel's division by the zero total `count(class=0) + count(class=1)`
whenever panel 1 succeeds (every present numeric field populated in all
records); if some numeric field is only partially present the request
instead fails earlier, at panel 1's NaN histogram. -/
theorem C10_zero_division : ∀ (records : List BloodRecord)
    (toks : Nat → String) (now : Int), records ≠ [] →
    hasField records (fun r => r.cls) = true →
    (∀ r ∈ records, r.cls ≠ some 0 ∧ r.cls ≠ some 1) →
    (∃ e, (visualize_blood_data records toks now).result = .error e ∧
      e.status = 500) ∧
    (histGridRaises records = false →
      (visualize_blood_data records toks now).result =
        .error ⟨500, "division by zero"⟩) := by
  intro records toks now h1 hC hno
  have hc0 : classCount records 0 = 0 := by
    simp only [classCount, List.countP_eq_zero]
    intro r hr
    simpa using (hno r hr).1
  have hc1 : classCount records 1 = 0 := by
    simp only [classCount, List.countP_eq_zero]
    intro r hr
    simpa using (hno r hr).2
  have hdiv : histGridRaises records = false →
      (visualize_blood_data records toks now).result =
        .error ⟨500, "division by zero"⟩ := by
    intro hg
    simp [visualize_blood_data, h1, hg, hC, hc0, hc1]
  refine ⟨?_, hdiv⟩
  cases hg : histGridRaises records
  · exact ⟨⟨500, "division by zero"⟩, hdiv hg, rfl⟩
  · refine ⟨⟨500, "autodetected range of [nan, nan] is not finite"⟩, ?_, rfl⟩
    simp [visualize_blood_data, h1, hg]

/-- C10 (witness): the amended theorem applied to a single record whose
class is 2 (no partially present field, so the division is reached). -/
theorem C10_witness :
    (visualize_blood_data [⟨none, none, none, none, some 2⟩]
        (fun _ => "t") 0).result = .error ⟨500, "division by zero"⟩ :=
  (C10_zero_division [⟨none, none, none, none, some 2⟩] (fun _ => "t") 0
    (by decide) (by decide) (by decide)).2 rfl

/-- C8 (confirmed): with N ≥ 2 datasets the multi-histogram figure is a
2-column grid with `(N+1)//2` rows — the ceiling of N/2, as the bounds
`N ≤ 2·rows ≤ N+1` make precise; the sub-charts, in order, each carry a
mean line computed from their own dataset, and exactly the grid cells
with index ≥ N (up to `rows·cols`) are hidden.  With 3 datasets this is
a 2×2 grid whose 4th cell (index 3) is hidden. -/
theorem C8_grid : ∀ (datasets : List MHDataset) (title tok : String)
    (now : Int), 2 ≤ datasets.length →
    ((generate_multi_histogram datasets title tok now).result =
      .ok ({ title := title, rows := (datasets.length + 1) / 2, cols := 2
             charts := datasets.map fun ds =>
               ⟨ds.label, ds.color, 20, mean ds.data⟩
             hiddenCells := (List.range (((datasets.length + 1) / 2) * 2)).filter
               fun i => datasets.length ≤ i },
           mkDescriptor "multi_histogram" tok now)) ∧
    (datasets.length ≤ 2 * ((datasets.length + 1) / 2) ∧
      2 * ((datasets.length + 1) / 2) ≤ datasets.length + 1) ∧
    (∀ j : Nat,
      (j ∈ (List.range (((datasets.length + 1) / 2) * 2)).filter
          fun i => datasets.length ≤ i) ↔
        (datasets.length ≤ j ∧ j < ((datasets.length + 1) / 2) * 2)) ∧
    ((generate_multi_histogram
        [⟨[1, 2], "A", "c1"⟩, ⟨[3], "B", "c2"⟩, ⟨[5, 7], "C", "c3"⟩]
        "T" "t" 0).result =
      .ok ({ title := "T", rows := 2, cols := 2
             charts := [⟨"A", "c1", 20, 3 / 2⟩, ⟨"B", "c2", 20, 3⟩,
                        ⟨"C", "c3", 20, 6⟩]
             hiddenCells := [3] },
           mkDescriptor "multi_histogram" "t" 0)) := by
  intro datasets title tok now h
  refine ⟨?_, by omega, ?_, ?_⟩
  · have h1 : ¬(datasets.length < 2) := by omega
    have h2 : datasets.length > 1 := by omega
    simp [generate_multi_histogram, h1, h2]
  · intro j
    simp [List.mem_filter, List.mem_range]
    tauto
  · have e1 : mean [(1 : ℚ), 2] = 3 / 2 := by norm_num [mean]
    have e2 : mean [(3 : ℚ)] = 3 := by norm_num [mean]
    have e3 : mean [(5 : ℚ), 7] = 6 := by norm_num [mean]
    have hrange : (List.range 4).filter (fun i => 3 ≤ i) = [3] := by decide
    simp [generate_multi_histogram, e1, e2, e3]
    exact hrange

/-- C8 (witness): the theorem applied to the concrete 3-dataset
request. -/
theorem C8_witness :
    (generate_multi_histogram
        [⟨[1, 2], "A", "c1"⟩, ⟨[3], "B", "c2"⟩, ⟨[5, 7], "C", "c3"⟩]
        "T" "t" 0).result =
      .ok ({ title := "T", rows := 2, cols := 2
             charts := [⟨"A", "c1", 20, 3 / 2⟩, ⟨"B", "c2", 20, 3⟩,
                        ⟨"C", "c3", 20, 6⟩]
             hiddenCells := [3] },
           mkDescriptor "multi_histogram" "t" 0) :=
  (C8_grid [⟨[1, 2], "A", "c1"⟩, ⟨[3], "B", "c2"⟩, ⟨[5, 7], "C", "c3"⟩]
    "T" "t" 0 (by decide)).2.2.2

lemma scatterGroups_classVals (x y cs : List ℚ) :
    (scatterGroups x y cs).map (fun g => g.classVal) = uniqueVals cs := by
  simp only [scatterGroups]
  rw [List.map_map]
  exact List.map_id (uniqueVals cs)

lemma scatterGroups_sizes (x y cs : List ℚ) (hxy : x.length = y.length)
    (hyc : y.length = cs.length) :
    ((scatterGroups x y cs).map fun g => g.points.length).sum = cs.length := by
  have hzip : (x.zip y).length = cs.length := by
    simp [List.length_zip]
    omega
  have hmap : ((scatterGroups x y cs).map fun g => g.points.length) =
      (uniqueVals cs).map fun c => occCount c cs := by
    simp only [scatterGroups]
    rw [List.map_map]
    apply List.map_congr_left
    intro c _
    simp only [Function.comp_apply, List.length_map]
    exact zip_filter_snd_length c (x.zip y) cs hzip
  rw [hmap]
  exact sum_occ_uniqueGo cs.length cs le_rfl

/-- C7 (confirmed): a scatter request carrying a (non-empty) classes
array of matching length partitions the points by class value: the
rendered series is one group per distinct class value (no value
repeated), the groups' point counts sum to the input length, class 1 is
drawn green as "Return Donor" and every other class value — in
particular 0 — red as "Non-Return Donor".  With classes [1,0,1] exactly
two groups result, of sizes 2 and 1.  Without classes a single
uncolored series of all points is rendered. -/
theorem C7_scatter_partition : ∀ (x y cs : List ℚ)
    (title xl yl tok : String) (now : Int),
    x ≠ [] → y ≠ [] → cs ≠ [] → x.length = y.length → y.length = cs.length →
    ((generate_scatter ⟨x, y, some cs, title, xl, yl⟩ tok now).result =
      .ok (.classed (scatterGroups x y cs), mkDescriptor "scatter" tok now)) ∧
    (((scatterGroups x y cs).map fun g => g.points.length).sum = x.length) ∧
    ((scatterGroups x y cs).map fun g => g.classVal).Nodup ∧
    (∀ g ∈ scatterGroups x y cs,
      (g.classVal = 1 → g.color = "#10b981" ∧ g.label = "Return Donor") ∧
      (g.classVal ≠ 1 → g.color = "#ef4444" ∧ g.label = "Non-Return Donor")) ∧
    ((scatterGroups [1, 2, 3] [4, 5, 6] [1, 0, 1]).map
        (fun g => (g.classVal, g.points.length)) = [(1, 2), (0, 1)]) ∧
    (∀ (x2 y2 : List ℚ), x2 ≠ [] → y2 ≠ [] → x2.length = y2.length →
      (generate_scatter ⟨x2, y2, none, title, xl, yl⟩ tok now).result =
        .ok (.plain (x2.zip y2), mkDescriptor "scatter" tok now)) := by
  intro x y cs title xl yl tok now hx hy hcs hxy hyc
  refine ⟨?_, ?_, ?_, ?_, by decide, ?_⟩
  · simp [generate_scatter, hx, hy, hcs, hxy, hyc]
  · rw [scatterGroups_sizes x y cs hxy hyc]
    omega
  · rw [scatterGroups_classVals]
    exact nodup_uniqueGo cs.length cs le_rfl
  · intro g hg
    rcases List.mem_map.mp hg with ⟨c, _, hc⟩
    subst hc
    constructor
    · intro h1
      simp only [classColor, classLabel] at h1 ⊢
      simp [h1]
    · intro h1
      simp only [classColor, classLabel] at h1 ⊢
      simp [h1]
  · intro x2 y2 hx2 hy2 hlen
    simp [generate_scatter, hx2, hy2, hlen]

/-- C7 (witness): the theorem applied to the concrete request with
x = [1,2,3], y = [4,5,6], classes = [1,0,1]. -/
theorem C7_witness :
    ((scatterGroups [1, 2, 3] [4, 5, 6] [1, 0, 1]).map
      fun g => g.points.length).sum = 3 :=
  (C7_scatter_partition [1, 2, 3] [4, 5, 6] [1, 0, 1] "T" "X" "Y" "t" 0
    (by decide) (by decide) (by decide) (by decide) (by decide)).2.1

/-- C2 (counterexample): the claim says the histogram-grid panel is
emitted only when at least one of recency/frequency/monetary/time is
present, so records carrying only `class` should yield just the
class-distribution panel (count 1).  In the code the grid figure is
created and saved unconditionally: the same request returns count 2,
the first descriptor being the (empty) histogram grid, although none of
the four fields is present. -/
theorem C2_counterexample :
    hasField [⟨none, none, none, none, some 1⟩] (fun r => r.recency) = false ∧
    hasField [⟨none, none, none, none, some 1⟩] (fun r => r.frequency) = false ∧
    hasField [⟨none, none, none, none, some 1⟩] (fun r => r.monetary) = false ∧
    hasField [⟨none, none, none, none, some 1⟩] (fun r => r.time) = false ∧
    (visualize_blood_data [⟨none, none, none, none, some 1⟩]
        (fun _ => "t") 0).result =
      .ok ⟨true, 2, [mkDescriptor "blood_histograms" "t" 0,
                     mkDescriptor "class_distribution" "t" 0]⟩ := by
  exact ⟨rfl, rfl, rfl, rfl, rfl⟩

/-- C2 (amended): the blood-data report produces panels in the fixed
order histogram grid, frequency-vs-monetary scatter, class-distribution
bar chart, recency-vs-frequency scatter.  The grid panel is not guarded
by any field-presence condition: for any non-empty request whose
present numeric fields are each populated in every record, it is
emitted unconditionally (covering whichever of the four fields are
present, possibly none), while the other three panels are emitted
exactly under the claimed presence conditions, absent fields skipping
their panel silently; the response's count equals the number of
descriptors produced — records with only recency and frequency yield
count 2 (grid plus recency-vs-frequency).  If instead some numeric
field is present in one record but missing from another, the grid
panel's `ax.hist` raises on the NaN-filled column and the whole request
fails with a 500 error.  (The second hypothesis excludes the
zero-division failure of C10, which aborts the request when `class` is
present but no record has class 0 or 1.) -/
theorem C2_amended : ∀ (records : List BloodRecord) (toks : Nat → String)
    (now : Int), records ≠ [] →
    histGridRaises records = false →
    ¬(hasField records (fun r => r.cls) = true ∧
      classCount records 0 + classCount records 1 = 0) →
    (∃ resp, (visualize_blood_data records toks now).result = .ok resp ∧
      resp.success = true ∧
      resp.count = resp.visualizations.length ∧
      resp.visualizations.map (fun d => d.filename) =
        (activePanels records).enum.map
          (fun ip => ip.2 ++ "_" ++ toks ip.1 ++ ".png")) ∧
    (∀ (records2 : List BloodRecord) (toks2 : Nat → String) (now2 : Int),
      records2 ≠ [] → histGridRaises records2 = true →
      visualize_blood_data records2 toks2 now2 =
        ⟨[Effect.render "blood_histograms"],
         .error ⟨500, "autodetected range of [nan, nan] is not finite"⟩⟩) ∧
    ((visualize_blood_data [⟨some 2, some 50, none, none, none⟩]
        (fun _ => "x") 0).result =
      .ok ⟨true, 2, [mkDescriptor "blood_histograms" "x" 0,
                     mkDescriptor "recency_vs_frequency" "x" 0]⟩) := by
  intro records toks now h1 hGrid h2
  have hcc0 : hasField records (fun r => r.cls) = true →
      classCount records 0 + classCount records 1 ≠ 0 :=
    fun hc hsum => h2 ⟨hc, hsum⟩
  refine ⟨?_, ?_, by rfl⟩
  case refine_2 =>
    intro records2 toks2 now2 h12 hg2
    simp [visualize_blood_data, h12, hg2]
  cases hR : hasField records fun r => r.recency <;>
    cases hF : hasField records fun r => r.frequency <;>
      cases hM : hasField records fun r => r.monetary <;>
        cases hC : hasField records fun r => r.cls
  all_goals first
    | (have hcc := hcc0 hC
       have hcc2 : ¬(classCount records 0 = 0 ∧ classCount records 1 = 0) := by
         intro hboth
         exact hcc (by omega)
       simp only [visualize_blood_data]
       simp [h1, hGrid, hR, hF, hM, hC, hcc, hcc2]
       simp [activePanels, hR, hF, hM, hC, mkDescriptor, mkFilename,
         List.enum, List.enumFrom])
    | (simp only [visualize_blood_data]
       simp [h1, hGrid, hR, hF, hM, hC]
       simp [activePanels, hR, hF, hM, hC, mkDescriptor, mkFilename,
         List.enum, List.enumFrom])

/-- C2 (witness): the amended theorem applied to records carrying only
recency and frequency. -/
theorem C2_witness :
    (visualize_blood_data [⟨some 2, some 50, none, none, none⟩]
        (fun _ => "x") 0).result =
      .ok ⟨true, 2, [mkDescriptor "blood_histograms" "x" 0,
                     mkDescriptor "recency_vs_frequency" "x" 0]⟩ :=
  (C2_amended [⟨some 2, some 50, none, none, none⟩] (fun _ => "x") 0
    (by decide) (by decide) (by decide)).2.2

end Hodie
